import Mathlib

/-!
Verification of `libavfilter/vf_stack_qsv.c` (QSV hstack/vstack filters).

The file shallowly embeds the configuration logic of the filter:
* `config_output` — validation of pixel formats / hardware device contexts,
  computation of the per-input destination rectangles, and the output link
  parameters (`vf_stack_qsv.c`, `config_output`);
* `framesync_ins` — the per-input frame-sync configuration loop of
  `init_framesync`;
* `filter_callback` — the pts-rescaling callback handed to the VPP session;
* `stack_qsv_options` — the user-facing option table.

Machine integers that hold validated frame dimensions are modelled as `Nat`
(link widths/heights are nonnegative pixel counts); timestamps are `Int`.
External collaborators (`ff_qsvvpp_init`, `ff_framesync_*`, the VPP driver)
are outside the modelled boundary: `config_output` is modelled up to the
point where it hands off to them, which is where all the validated state is
already fixed.
-/

/-- Pixel formats relevant to the filter. `other n` stands for any further
member of the `AVPixelFormat` enum. -/
inductive AVPixelFormat where
  | AV_PIX_FMT_NV12
  | AV_PIX_FMT_QSV
  | other (n : Nat)
deriving DecidableEq, Repr

/-- Error codes returned by the modelled code paths (`AVERROR(EINVAL)`,
`AVERROR(ENOMEM)`). -/
inductive AVError where
  | EINVAL
  | ENOMEM
deriving DecidableEq, Repr

/-- `AVRational` from libavutil: a numerator/denominator pair. -/
structure AVRational where
  num : Int
  den : Int
deriving DecidableEq, Repr

/-- Modelled from the spec: `av_inv_q` lives in libavutil/rational.h, which is
not under src/; the spec says the output time base is "the exact rational
inverse of that frame rate", i.e. numerator and denominator swapped. -/
def av_inv_q (q : AVRational) : AVRational :=
  { num := q.den, den := q.num }

/-- The slice of `AVFilterLink` read by `config_output` and `init_framesync`:
pixel format, the identity of the underlying hardware device context
(`((AVHWFramesContext *)link->hw_frames_ctx->data)->device_ctx`, modelled as a
numeric identity, meaningful only for hardware-resident links), frame
dimensions, frame rate and time base. -/
structure FilterLinkIn where
  format : AVPixelFormat
  hwDeviceCtx : Nat
  w : Nat
  h : Nat
  frame_rate : AVRational
  time_base : AVRational
deriving DecidableEq, Repr

/-- One entry of `comp_conf.InputStream` (`mfxVPPCompInputStream`): the
destination rectangle and the alpha configuration written by
`config_output`. -/
structure mfxVPPCompInputStream where
  DstX : Nat
  DstY : Nat
  DstW : Nat
  DstH : Nat
  GlobalAlpha : Nat
  GlobalAlphaEnable : Nat
  PixelAlphaEnable : Nat
deriving DecidableEq, Repr

/-- The `InputStream` array as allocated in `stack_qsv_init`:
`av_mallocz_array` returns zeroed memory, so every field starts at 0. -/
def init_items (n : Nat) : List mfxVPPCompInputStream :=
  List.replicate n ⟨0, 0, 0, 0, 0, 0, 0⟩

/-- The fields of the output `AVFilterLink` assigned by `config_output`. -/
structure OutLink where
  w : Nat
  h : Nat
  frame_rate : AVRational
  time_base : AVRational
deriving DecidableEq, Repr

/-- The state produced by a successful `config_output`: the filled
`comp_conf.InputStream` array and the output link parameters. -/
structure ConfigResult where
  items : List mfxVPPCompInputStream
  outlink : OutLink
deriving DecidableEq, Repr

/-- `stack_qsv_init` sets `is_horizontal` to 1 when the filter is registered
as `hstack_qsv`, and (after `av_assert0` on the name `vstack_qsv`) to 0
otherwise. -/
def stack_qsv_init_is_horizontal (filter_name : String) : Bool :=
  filter_name = "hstack_qsv"

/-- The first loop of `config_output` (the loop over inputs 1..N-1): when
input 0 is hardware-resident (`AV_PIX_FMT_QSV`), every other input must have
the same format, and its hardware frames context must refer to the same
underlying device context; either mismatch returns `AVERROR(EINVAL)`. When
input 0 is not `AV_PIX_FMT_QSV`, the loop body does nothing. -/
def check_formats (inlink0 : FilterLinkIn) : List FilterLinkIn → Except AVError Unit
  | [] => Except.ok ()
  | inlink :: rest =>
    if inlink0.format = AVPixelFormat.AV_PIX_FMT_QSV then
      if inlink0.format ≠ inlink.format then
        Except.error AVError.EINVAL
      else if inlink0.hwDeviceCtx ≠ inlink.hwDeviceCtx then
        Except.error AVError.EINVAL
      else
        check_formats inlink0 rest
    else
      check_formats inlink0 rest

/-- The horizontal placement loop of `config_output`: walking the inputs in
order with the running x-offset `width` (started at 0 by the caller), each
input whose height differs from the height of input 0 (`h0`) aborts with
`AVERROR(EINVAL)`; otherwise its `InputStream` entry gets
`DstX = width, DstY = 0, DstW = w, DstH = h`, full opacity, and `width` is
advanced by the width of the input. Returns the filled entries and the final
accumulated width. -/
def stack_horizontal (h0 : Nat) (width : Nat) :
    List FilterLinkIn → Except AVError (List mfxVPPCompInputStream × Nat)
  | [] => Except.ok ([], width)
  | inlink :: rest =>
    if h0 ≠ inlink.h then
      Except.error AVError.EINVAL
    else
      match stack_horizontal h0 (width + inlink.w) rest with
      | Except.error e => Except.error e
      | Except.ok (items, total) =>
        Except.ok (⟨width, 0, inlink.w, inlink.h, 255, 1, 0⟩ :: items, total)

/-- `config_output` from `vf_stack_qsv.c`, modelled up to the hand-off to
`init_framesync` / `ff_qsvvpp_init`.

The C function declares `int width, height;` without initialisers and only
assigns them inside `if (vpp->is_horizontal)`; there is no vertical branch,
yet `outlink->w = width; outlink->h = height;` run unconditionally.  The
parameters `width0` and `height0` model the indeterminate initial contents of
those stack variables, and `items0` models the prior contents of
`comp_conf.InputStream` (zeroed by `stack_qsv_init`), which the non-horizontal
path leaves untouched. -/
def config_output (inputs : List FilterLinkIn) (is_horizontal : Bool)
    (width0 height0 : Nat) (items0 : List mfxVPPCompInputStream) :
    Except AVError ConfigResult :=
  match inputs with
  | [] => Except.error AVError.EINVAL
  | inlink0 :: rest =>
    match check_formats inlink0 rest with
    | Except.error e => Except.error e
    | Except.ok () =>
      if is_horizontal then
        match stack_horizontal inlink0.h 0 (inlink0 :: rest) with
        | Except.error e => Except.error e
        | Except.ok (items, width) =>
          Except.ok
            { items := items
              outlink :=
                { w := width, h := inlink0.h
                  frame_rate := inlink0.frame_rate
                  time_base := av_inv_q inlink0.frame_rate } }
      else
        Except.ok
          { items := items0
            outlink :=
              { w := width0, h := height0
                frame_rate := inlink0.frame_rate
                time_base := av_inv_q inlink0.frame_rate } }

/-- End-of-stream handling modes of the frame synchronizer (`framesync.h`). -/
inductive FFFrameSyncExtMode where
  | EXT_STOP
  | EXT_NULL
  | EXT_INFINITY
deriving DecidableEq, Repr

/-- The per-input frame-sync configuration written by `init_framesync`. -/
structure FFFrameSyncIn where
  before : FFFrameSyncExtMode
  after : FFFrameSyncExtMode
  sync : Nat
  time_base : AVRational
deriving DecidableEq, Repr

/-- The per-input loop of `init_framesync`: for input `i`,
`before = EXT_STOP`, `after = shortest ? EXT_STOP : EXT_INFINITY`,
`sync = i ? 1 : 2`, and the time base is copied from the input link. -/
def framesync_ins (shortest : Bool) (i : Nat) :
    List FilterLinkIn → List FFFrameSyncIn
  | [] => []
  | inlink :: rest =>
    { before := FFFrameSyncExtMode.EXT_STOP
      after := if shortest then FFFrameSyncExtMode.EXT_STOP
               else FFFrameSyncExtMode.EXT_INFINITY
      sync := if i = 0 then 2 else 1
      time_base := inlink.time_base } :: framesync_ins shortest (i + 1) rest

/-- Option types used by the option table of the filter. -/
inductive AVOptType where
  | int
  | bool
deriving DecidableEq, Repr

/-- One `AVOption` entry: name, type, default value and bounds. -/
structure AVOption where
  name : String
  typ : AVOptType
  default_val : Int
  min : Int
  max : Int
deriving DecidableEq, Repr

/-- `stack_qsv_options` from `vf_stack_qsv.c`: the user-facing option table
(shared by `hstack_qsv` and `vstack_qsv`). -/
def stack_qsv_options : List AVOption :=
  [ { name := "inputs", typ := AVOptType.int, default_val := 2, min := 2, max := 64 },
    { name := "shortest", typ := AVOptType.bool, default_val := 0, min := 0, max := 1 } ]

/-- The fields of `AVFrame` touched by `filter_callback`. -/
structure AVFrame where
  pts : Int
deriving DecidableEq, Repr

/-- The frame synchronizer state read by `filter_callback`: its current pts
and time base. -/
structure FrameSyncState where
  pts : Int
  time_base : AVRational
deriving DecidableEq, Repr

/-- Modelled from the spec: `av_rescale_q` lives in libavutil/mathematics.c,
which is not under src/; the spec says the synchronizer timestamp is
rescaled from the synchronizer time base to the output link time base,
i.e. multiplied by the ratio of the two time bases and rounded to the nearest
integer. -/
def av_rescale_q (a : Int) (bq cq : AVRational) : Int :=
  round ((a : ℚ) * (bq.num : ℚ) * (cq.den : ℚ) / ((bq.den : ℚ) * (cq.num : ℚ)))

/-- `filter_callback` from `vf_stack_qsv.c`: overwrite the pts of the composed
frame with the synchronizer pts rescaled to the output time base; the
returned frame is the one passed on to `ff_filter_frame` (forwarded
downstream). -/
def filter_callback (fs : FrameSyncState) (outlink_time_base : AVRational)
    (frame : AVFrame) : AVFrame :=
  { frame with pts := av_rescale_q fs.pts fs.time_base outlink_time_base }

/-- Sum of the widths of a list of input links. -/
def sumW : List FilterLinkIn → Nat
  | [] => 0
  | l :: ls => l.w + sumW ls

/-- The `InputStream` entries the horizontal loop writes when every height
check passes, starting from running x-offset `acc`. -/
def horItems (acc : Nat) : List FilterLinkIn → List mfxVPPCompInputStream
  | [] => []
  | l :: ls => ⟨acc, 0, l.w, l.h, 255, 1, 0⟩ :: horItems (acc + l.w) ls

/-- Membership of the point `(x, y)` in the half-open destination rectangle
`[DstX, DstX+DstW) × [DstY, DstY+DstH)` of an `InputStream` entry. -/
def inRect (s : mfxVPPCompInputStream) (x y : Nat) : Prop :=
  s.DstX ≤ x ∧ x < s.DstX + s.DstW ∧ s.DstY ≤ y ∧ y < s.DstY + s.DstH

/-- Two destination rectangles are disjoint: no point lies in both. -/
def rect_disjoint (a b : mfxVPPCompInputStream) : Prop :=
  ∀ x y : Nat, ¬(inRect a x y ∧ inRect b x y)

theorem stack_horizontal_cons (h0 acc : Nat) (l : FilterLinkIn)
    (ls : List FilterLinkIn) :
    stack_horizontal h0 acc (l :: ls) =
      if h0 ≠ l.h then Except.error AVError.EINVAL
      else
        match stack_horizontal h0 (acc + l.w) ls with
        | Except.error e => Except.error e
        | Except.ok (items, total) =>
          Except.ok (⟨acc, 0, l.w, l.h, 255, 1, 0⟩ :: items, total) := rfl

theorem stack_horizontal_eq_ok (h0 : Nat) :
    ∀ (ls : List FilterLinkIn) (acc : Nat), (∀ l ∈ ls, l.h = h0) →
      stack_horizontal h0 acc ls = Except.ok (horItems acc ls, acc + sumW ls) := by
  intro ls
  induction ls with
  | nil => intro acc _; rfl
  | cons l ls ih =>
    intro acc hall
    have hl : l.h = h0 := hall l (List.mem_cons_self l ls)
    have hrest : ∀ x ∈ ls, x.h = h0 := fun x hx => hall x (List.mem_cons_of_mem l hx)
    rw [stack_horizontal_cons, if_neg (not_not_intro hl.symm), ih (acc + l.w) hrest]
    simp [horItems, sumW, Nat.add_assoc]

theorem stack_horizontal_ok_heights (h0 : Nat) :
    ∀ (ls : List FilterLinkIn) (acc : Nat) (p : List mfxVPPCompInputStream × Nat),
      stack_horizontal h0 acc ls = Except.ok p → ∀ l ∈ ls, l.h = h0 := by
  intro ls
  induction ls with
  | nil => intro acc p _ l hl; simp at hl
  | cons l ls ih =>
    intro acc p hok x hx
    rw [stack_horizontal_cons] at hok
    by_cases hne : h0 = l.h
    · rw [if_neg (not_not_intro hne)] at hok
      rcases List.mem_cons.mp hx with h | h
      · rw [h, hne]
      · cases hrec : stack_horizontal h0 (acc + l.w) ls with
        | error e => rw [hrec] at hok; cases hok
        | ok q =>
          obtain ⟨items, total⟩ := q
          exact ih (acc + l.w) (items, total) hrec x h
    · rw [if_pos hne] at hok; cases hok

theorem stack_horizontal_err (h0 : Nat) :
    ∀ (ls : List FilterLinkIn) (acc : Nat), (∃ l ∈ ls, l.h ≠ h0) →
      stack_horizontal h0 acc ls = Except.error AVError.EINVAL := by
  intro ls
  induction ls with
  | nil => intro acc h; rcases h with ⟨l, hl, _⟩; simp at hl
  | cons l ls ih =>
    intro acc h
    rw [stack_horizontal_cons]
    by_cases hne : h0 = l.h
    · rw [if_neg (not_not_intro hne)]
      rcases h with ⟨x, hx, hxne⟩
      rcases List.mem_cons.mp hx with hcase | hcase
      · exact absurd (by rw [hcase]; exact hne.symm) hxne
      · rw [ih (acc + l.w) ⟨x, hcase, hxne⟩]
    · rw [if_pos hne]

theorem check_formats_cons (l0 l : FilterLinkIn) (ls : List FilterLinkIn) :
    check_formats l0 (l :: ls) =
      if l0.format = AVPixelFormat.AV_PIX_FMT_QSV then
        if l0.format ≠ l.format then Except.error AVError.EINVAL
        else if l0.hwDeviceCtx ≠ l.hwDeviceCtx then Except.error AVError.EINVAL
        else check_formats l0 ls
      else check_formats l0 ls := rfl

theorem check_formats_error_val (l0 : FilterLinkIn) :
    ∀ (ls : List FilterLinkIn) (e : AVError),
      check_formats l0 ls = Except.error e → e = AVError.EINVAL := by
  intro ls
  induction ls with
  | nil => intro e h; cases h
  | cons l ls ih =>
    intro e h
    rw [check_formats_cons] at h
    by_cases hq : l0.format = AVPixelFormat.AV_PIX_FMT_QSV
    · rw [if_pos hq] at h
      by_cases hf : l0.format = l.format
      · rw [if_neg (not_not_intro hf)] at h
        by_cases hd : l0.hwDeviceCtx = l.hwDeviceCtx
        · rw [if_neg (not_not_intro hd)] at h
          exact ih e h
        · rw [if_pos hd] at h
          exact (Except.error.inj h).symm
      · rw [if_pos hf] at h
        exact (Except.error.inj h).symm
    · rw [if_neg hq] at h
      exact ih e h

theorem check_formats_err_format (l0 : FilterLinkIn)
    (hq : l0.format = AVPixelFormat.AV_PIX_FMT_QSV) :
    ∀ ls : List FilterLinkIn, (∃ l ∈ ls, l.format ≠ l0.format) →
      check_formats l0 ls = Except.error AVError.EINVAL := by
  intro ls
  induction ls with
  | nil => intro h; rcases h with ⟨l, hl, _⟩; simp at hl
  | cons l ls ih =>
    intro h
    rw [check_formats_cons, if_pos hq]
    by_cases hf : l0.format = l.format
    · rw [if_neg (not_not_intro hf)]
      by_cases hd : l0.hwDeviceCtx = l.hwDeviceCtx
      · rw [if_neg (not_not_intro hd)]
        rcases h with ⟨x, hx, hxne⟩
        rcases List.mem_cons.mp hx with hc | hc
        · exact absurd (by rw [hc]; exact hf.symm) hxne
        · exact ih ⟨x, hc, hxne⟩
      · rw [if_pos hd]
    · rw [if_pos hf]

theorem check_formats_err_device (l0 : FilterLinkIn)
    (hq : l0.format = AVPixelFormat.AV_PIX_FMT_QSV) :
    ∀ ls : List FilterLinkIn,
      (∀ l ∈ ls, l.format = AVPixelFormat.AV_PIX_FMT_QSV) →
      (∃ l ∈ ls, l.hwDeviceCtx ≠ l0.hwDeviceCtx) →
      check_formats l0 ls = Except.error AVError.EINVAL := by
  intro ls
  induction ls with
  | nil => intro _ h; rcases h with ⟨l, hl, _⟩; simp at hl
  | cons l ls ih =>
    intro hall hex
    rw [check_formats_cons, if_pos hq]
    have hf : l0.format = l.format := by
      rw [hq, hall l (List.mem_cons_self l ls)]
    rw [if_neg (not_not_intro hf)]
    by_cases hd : l0.hwDeviceCtx = l.hwDeviceCtx
    · rw [if_neg (not_not_intro hd)]
      rcases hex with ⟨x, hx, hxne⟩
      rcases List.mem_cons.mp hx with hc | hc
      · exact absurd (by rw [hc]; exact hd.symm) hxne
      · exact ih (fun y hy => hall y (List.mem_cons_of_mem l hy)) ⟨x, hc, hxne⟩
    · rw [if_pos hd]

theorem horItems_mem_alpha :
    ∀ (ls : List FilterLinkIn) (acc : Nat) (s : mfxVPPCompInputStream),
      s ∈ horItems acc ls →
      s.GlobalAlpha = 255 ∧ s.GlobalAlphaEnable = 1 ∧ s.PixelAlphaEnable = 0 := by
  intro ls
  induction ls with
  | nil => intro acc s h; simp [horItems] at h
  | cons l ls ih =>
    intro acc s h
    simp only [horItems] at h
    rcases List.mem_cons.mp h with hc | hc
    · rw [hc]
      exact ⟨rfl, rfl, rfl⟩
    · exact ih (acc + l.w) s hc

theorem horItems_DstX_ge :
    ∀ (ls : List FilterLinkIn) (acc : Nat) (s : mfxVPPCompInputStream),
      s ∈ horItems acc ls → acc ≤ s.DstX := by
  intro ls
  induction ls with
  | nil => intro acc s h; simp [horItems] at h
  | cons l ls ih =>
    intro acc s h
    simp only [horItems] at h
    rcases List.mem_cons.mp h with hc | hc
    · rw [hc]
    · exact le_trans (Nat.le_add_right acc l.w) (ih (acc + l.w) s hc)

theorem horItems_pairwise :
    ∀ (ls : List FilterLinkIn) (acc : Nat),
      List.Pairwise rect_disjoint (horItems acc ls) := by
  intro ls
  induction ls with
  | nil => intro acc; exact List.Pairwise.nil
  | cons l ls ih =>
    intro acc
    simp only [horItems]
    refine List.Pairwise.cons ?_ (ih (acc + l.w))
    intro b hb x y hxy
    simp only [inRect] at hxy
    have hble : acc + l.w ≤ b.DstX := horItems_DstX_ge ls (acc + l.w) b hb
    have hxlt : x < acc + l.w := hxy.1.2.1
    exact absurd hxy.2.1 (not_le_of_lt (lt_of_lt_of_le hxlt hble))

theorem init_items_pairwise (n : Nat) :
    List.Pairwise rect_disjoint (init_items n) := by
  have hz : ∀ b : mfxVPPCompInputStream, rect_disjoint ⟨0, 0, 0, 0, 0, 0, 0⟩ b := by
    intro b x y hxy
    simp only [inRect] at hxy
    exact absurd hxy.1.2.1 (by omega)
  induction n with
  | zero => exact List.Pairwise.nil
  | succ n ih =>
    simp only [init_items, List.replicate] at ih ⊢
    exact List.Pairwise.cons (fun b _ => hz b) ih

theorem horItems_get :
    ∀ (ls : List FilterLinkIn) (acc i : Nat) (l : FilterLinkIn),
      ls[i]? = some l →
      (horItems acc ls)[i]? =
        some ⟨acc + sumW (ls.take i), 0, l.w, l.h, 255, 1, 0⟩ := by
  intro ls
  induction ls with
  | nil => intro acc i l h; simp at h
  | cons x xs ih =>
    intro acc i l h
    cases i with
    | zero =>
      rw [List.getElem?_cons_zero] at h
      cases h
      simp [horItems, sumW]
    | succ i =>
      rw [List.getElem?_cons_succ] at h
      simp only [horItems, List.getElem?_cons_succ, List.take_succ_cons]
      rw [ih (acc + x.w) i l h]
      simp [sumW, Nat.add_assoc]

theorem config_output_cons (l0 : FilterLinkIn) (rest : List FilterLinkIn)
    (hor : Bool) (w0 h0 : Nat) (items0 : List mfxVPPCompInputStream) :
    config_output (l0 :: rest) hor w0 h0 items0 =
      match check_formats l0 rest with
      | Except.error e => Except.error e
      | Except.ok () =>
        if hor then
          match stack_horizontal l0.h 0 (l0 :: rest) with
          | Except.error e => Except.error e
          | Except.ok (items, width) =>
            Except.ok ⟨items, ⟨width, l0.h, l0.frame_rate, av_inv_q l0.frame_rate⟩⟩
        else
          Except.ok ⟨items0, ⟨w0, h0, l0.frame_rate, av_inv_q l0.frame_rate⟩⟩ := rfl

theorem config_output_ok_horizontal (l0 : FilterLinkIn) (rest : List FilterLinkIn)
    (w0 h0 : Nat) (items0 : List mfxVPPCompInputStream) (r : ConfigResult)
    (hok : config_output (l0 :: rest) true w0 h0 items0 = Except.ok r) :
    (∀ l ∈ l0 :: rest, l.h = l0.h) ∧
    r.items = horItems 0 (l0 :: rest) ∧
    r.outlink = ⟨sumW (l0 :: rest), l0.h, l0.frame_rate, av_inv_q l0.frame_rate⟩ := by
  rw [config_output_cons] at hok
  cases hcf : check_formats l0 rest with
  | error e => rw [hcf] at hok; cases hok
  | ok u =>
    cases u
    rw [hcf] at hok
    cases hsh : stack_horizontal l0.h 0 (l0 :: rest) with
    | error e => rw [hsh] at hok; cases hok
    | ok p =>
      obtain ⟨items, width⟩ := p
      rw [hsh] at hok
      have hall : ∀ l ∈ l0 :: rest, l.h = l0.h :=
        stack_horizontal_ok_heights l0.h (l0 :: rest) 0 (items, width) hsh
      have heq := stack_horizontal_eq_ok l0.h (l0 :: rest) 0 hall
      rw [hsh] at heq
      have hpair := Except.ok.inj heq
      have hitems : items = horItems 0 (l0 :: rest) := congrArg Prod.fst hpair
      have hwidth : width = sumW (l0 :: rest) := by
        have := congrArg Prod.snd hpair
        simpa using this
      cases hok
      refine ⟨hall, hitems, ?_⟩
      rw [hwidth]

theorem config_output_ok_vertical (l0 : FilterLinkIn) (rest : List FilterLinkIn)
    (w0 h0 : Nat) (items0 : List mfxVPPCompInputStream) (r : ConfigResult)
    (hok : config_output (l0 :: rest) false w0 h0 items0 = Except.ok r) :
    r = ⟨items0, ⟨w0, h0, l0.frame_rate, av_inv_q l0.frame_rate⟩⟩ := by
  rw [config_output_cons] at hok
  cases hcf : check_formats l0 rest with
  | error e => rw [hcf] at hok; cases hok
  | ok u =>
    cases u
    rw [hcf] at hok
    cases hok
    rfl

/-- A software-format (`AV_PIX_FMT_NV12`) input link of the given size, with
a 30 fps frame rate and a 1/1000 time base. -/
def nv12Link (w h : Nat) : FilterLinkIn :=
  { format := AVPixelFormat.AV_PIX_FMT_NV12, hwDeviceCtx := 0, w := w, h := h
    frame_rate := ⟨30, 1⟩, time_base := ⟨1, 1000⟩ }

/-- A hardware-resident (`AV_PIX_FMT_QSV`) input link on device `dev`. -/
def qsvLink (dev w h : Nat) : FilterLinkIn :=
  { format := AVPixelFormat.AV_PIX_FMT_QSV, hwDeviceCtx := dev, w := w, h := h
    frame_rate := ⟨30, 1⟩, time_base := ⟨1, 1000⟩ }

/-- Claim C1: for N inputs of equal height, a successful horizontal
configuration gives input i the destination rectangle whose x-offset is the
sum of the widths of inputs 0..i-1, y-offset 0, the width of input i and the
common height; the output link gets the total width and the common height. -/
theorem hstack_geometry (l0 : FilterLinkIn) (rest : List FilterLinkIn)
    (hcommon width0 height0 : Nat) (items0 : List mfxVPPCompInputStream)
    (r : ConfigResult)
    (hall : ∀ l ∈ l0 :: rest, l.h = hcommon)
    (hok : config_output (l0 :: rest) true width0 height0 items0 = Except.ok r) :
    (∀ (i : Nat) (l : FilterLinkIn), (l0 :: rest)[i]? = some l →
        ∃ s, r.items[i]? = some s ∧
          s.DstX = sumW ((l0 :: rest).take i) ∧ s.DstY = 0 ∧
          s.DstW = l.w ∧ s.DstH = hcommon) ∧
    r.outlink.w = sumW (l0 :: rest) ∧ r.outlink.h = hcommon := by
  obtain ⟨_, hitems, hout⟩ :=
    config_output_ok_horizontal l0 rest width0 height0 items0 r hok
  have h0c : l0.h = hcommon := hall l0 (List.mem_cons_self l0 rest)
  refine ⟨?_, ?_, ?_⟩
  · intro i l hget
    have hmem : l ∈ l0 :: rest := List.getElem?_mem hget
    refine ⟨⟨sumW ((l0 :: rest).take i), 0, l.w, l.h, 255, 1, 0⟩, ?_, rfl, rfl,
      rfl, hall l hmem⟩
    rw [hitems]
    have hg := horItems_get (l0 :: rest) 0 i l hget
    simpa using hg
  · rw [hout]
  · rw [hout, h0c]

theorem hstack_geometry_witness :
    (∀ l ∈ [nv12Link 100 50, nv12Link 200 50, nv12Link 300 50], l.h = 50) ∧
    (ConfigResult.mk
        [⟨0, 0, 100, 50, 255, 1, 0⟩, ⟨100, 0, 200, 50, 255, 1, 0⟩,
          ⟨300, 0, 300, 50, 255, 1, 0⟩]
        ⟨600, 50, ⟨30, 1⟩, ⟨1, 30⟩⟩).outlink.w =
      sumW [nv12Link 100 50, nv12Link 200 50, nv12Link 300 50] :=
  ⟨by decide,
    (hstack_geometry (nv12Link 100 50) [nv12Link 200 50, nv12Link 300 50] 50 0 0
        (init_items 3)
        ⟨[⟨0, 0, 100, 50, 255, 1, 0⟩, ⟨100, 0, 200, 50, 255, 1, 0⟩,
            ⟨300, 0, 300, 50, 255, 1, 0⟩],
          ⟨600, 50, ⟨30, 1⟩, ⟨1, 30⟩⟩⟩
        (by decide) rfl).2.1⟩

/-- Claim C2 (code bug): `vstack_qsv` registers with `is_horizontal = 0`, but
`config_output` has no vertical branch at all.  On a vertical configuration
with mismatched widths (100 vs 200) the function does not reject, writes no
destination rectangle (the `InputStream` array keeps its zeroed initial
contents), and copies the indeterminate initial values of the local variables
`width`/`height` (here `width0`/`height0`, arbitrary) into the output link. -/
theorem vstack_no_vertical_branch (width0 height0 : Nat) :
    stack_qsv_init_is_horizontal "vstack_qsv" = false ∧
    config_output [nv12Link 100 50, nv12Link 200 60]
        (stack_qsv_init_is_horizontal "vstack_qsv") width0 height0
        (init_items 2) =
      Except.ok ⟨init_items 2, ⟨width0, height0, ⟨30, 1⟩, ⟨1, 30⟩⟩⟩ :=
  ⟨rfl, rfl⟩

/-- Claim C3 counterexample: with input 0 in a software format (NV12) and
input 1 hardware-resident (QSV), `config_output` does not fail: the format
check is guarded on input 0 being QSV, so a software input 0 skips it
entirely and configuration succeeds. -/
theorem mixed_formats_accepted_cex :
    config_output [nv12Link 100 50, qsvLink 1 100 50] true 0 0 (init_items 2) ≠
      Except.error AVError.EINVAL ∧
    config_output [nv12Link 100 50, qsvLink 1 100 50] true 0 0 (init_items 2) =
      Except.ok ⟨[⟨0, 0, 100, 50, 255, 1, 0⟩, ⟨100, 0, 100, 50, 255, 1, 0⟩],
        ⟨200, 50, ⟨30, 1⟩, ⟨1, 30⟩⟩⟩ := by
  refine ⟨fun hcontra => ?_, rfl⟩
  cases hcontra

/-- Claim C3 as amended: only when input 0 is hardware-resident
(`AV_PIX_FMT_QSV`) does a format mismatch with any later input reject the
configuration with `AVERROR(EINVAL)` (in either stacking mode). -/
theorem hw_format_mismatch_rejected (l0 : FilterLinkIn) (rest : List FilterLinkIn)
    (is_horizontal : Bool) (width0 height0 : Nat)
    (items0 : List mfxVPPCompInputStream)
    (hq : l0.format = AVPixelFormat.AV_PIX_FMT_QSV)
    (hmis : ∃ l ∈ rest, l.format ≠ l0.format) :
    config_output (l0 :: rest) is_horizontal width0 height0 items0 =
      Except.error AVError.EINVAL := by
  rw [config_output_cons, check_formats_err_format l0 hq rest hmis]

theorem hw_format_mismatch_rejected_witness :
    (qsvLink 0 100 50).format = AVPixelFormat.AV_PIX_FMT_QSV ∧
    config_output [qsvLink 0 100 50, nv12Link 100 50] true 0 0 (init_items 2) =
      Except.error AVError.EINVAL :=
  ⟨rfl, hw_format_mismatch_rejected (qsvLink 0 100 50) [nv12Link 100 50] true 0 0
      (init_items 2) rfl ⟨nv12Link 100 50, by decide, by decide⟩⟩

/-- Claim C4: in horizontal mode, any input whose height differs from the
height of input 0 makes `config_output` return `AVERROR(EINVAL)` before the
frame synchronizer or the VPP session are initialised. -/
theorem hstack_height_mismatch_rejected (l0 : FilterLinkIn)
    (rest : List FilterLinkIn) (width0 height0 : Nat)
    (items0 : List mfxVPPCompInputStream)
    (hmis : ∃ l ∈ rest, l.h ≠ l0.h) :
    config_output (l0 :: rest) true width0 height0 items0 =
      Except.error AVError.EINVAL := by
  rw [config_output_cons]
  cases hcf : check_formats l0 rest with
  | error e =>
    have he := check_formats_error_val l0 rest e hcf
    subst he
    rfl
  | ok u =>
    cases u
    have hmis2 : ∃ l ∈ l0 :: rest, l.h ≠ l0.h := by
      rcases hmis with ⟨x, hx, hxne⟩
      exact ⟨x, List.mem_cons_of_mem l0 hx, hxne⟩
    rw [stack_horizontal_err l0.h (l0 :: rest) 0 hmis2]
    rfl

theorem hstack_height_mismatch_rejected_witness :
    (∃ l ∈ [nv12Link 100 60], l.h ≠ (nv12Link 100 50).h) ∧
    config_output [nv12Link 100 50, nv12Link 100 60] true 0 0 (init_items 2) =
      Except.error AVError.EINVAL :=
  ⟨⟨nv12Link 100 60, by decide, by decide⟩,
    hstack_height_mismatch_rejected (nv12Link 100 50) [nv12Link 100 60] 0 0
      (init_items 2) ⟨nv12Link 100 60, by decide, by decide⟩⟩

/-- Claim C5: the composed frame forwarded downstream carries the frame
synchronizer pts rescaled from the synchronizer time base to the output link
time base; the pts the hardware compositor left on the frame is discarded
(the result does not depend on the incoming frame). -/
theorem filter_callback_pts (fs : FrameSyncState) (outlink_tb : AVRational)
    (frame other : AVFrame) :
    (filter_callback fs outlink_tb frame).pts =
      av_rescale_q fs.pts fs.time_base outlink_tb ∧
    filter_callback fs outlink_tb frame = filter_callback fs outlink_tb other := by
  cases frame
  cases other
  exact ⟨rfl, rfl⟩

/-- Claim C6: when input 0 and all other inputs are hardware-resident
(`AV_PIX_FMT_QSV`) and some input refers to a different underlying device
context than input 0, `config_output` fails with `AVERROR(EINVAL)` before any
geometry is computed, in either stacking mode. -/
theorem device_mismatch_rejected (l0 : FilterLinkIn) (rest : List FilterLinkIn)
    (is_horizontal : Bool) (width0 height0 : Nat)
    (items0 : List mfxVPPCompInputStream)
    (hq : l0.format = AVPixelFormat.AV_PIX_FMT_QSV)
    (hallq : ∀ l ∈ rest, l.format = AVPixelFormat.AV_PIX_FMT_QSV)
    (hdev : ∃ l ∈ rest, l.hwDeviceCtx ≠ l0.hwDeviceCtx) :
    config_output (l0 :: rest) is_horizontal width0 height0 items0 =
      Except.error AVError.EINVAL := by
  rw [config_output_cons, check_formats_err_device l0 hq rest hallq hdev]

theorem device_mismatch_rejected_witness :
    (qsvLink 0 100 50).format = AVPixelFormat.AV_PIX_FMT_QSV ∧
    config_output [qsvLink 0 100 50, qsvLink 1 100 50] true 0 0 (init_items 2) =
      Except.error AVError.EINVAL :=
  ⟨rfl, device_mismatch_rejected (qsvLink 0 100 50) [qsvLink 1 100 50] true 0 0
      (init_items 2) rfl (by decide) ⟨qsvLink 1 100 50, by decide, by decide⟩⟩

/-- Claim C7: on every successful configuration starting from the zeroed
`InputStream` array, the destination rectangles are pairwise disjoint (in
horizontal mode they partition along the x-axis; in the degenerate
non-horizontal path the entries stay zeroed, i.e. empty). -/
theorem stack_rectangles_disjoint (inputs : List FilterLinkIn)
    (is_horizontal : Bool) (width0 height0 : Nat) (r : ConfigResult)
    (hok : config_output inputs is_horizontal width0 height0
        (init_items inputs.length) = Except.ok r) :
    List.Pairwise rect_disjoint r.items := by
  cases inputs with
  | nil => cases hok
  | cons l0 rest =>
    cases is_horizontal with
    | false =>
      rw [config_output_ok_vertical l0 rest width0 height0 _ r hok]
      exact init_items_pairwise (l0 :: rest).length
    | true =>
      obtain ⟨_, hitems, _⟩ :=
        config_output_ok_horizontal l0 rest width0 height0 _ r hok
      rw [hitems]
      exact horItems_pairwise (l0 :: rest) 0

theorem stack_rectangles_disjoint_witness :
    List.Pairwise rect_disjoint
      [(⟨0, 0, 100, 50, 255, 1, 0⟩ : mfxVPPCompInputStream),
        ⟨100, 0, 200, 50, 255, 1, 0⟩] :=
  stack_rectangles_disjoint [nv12Link 100 50, nv12Link 200 50] true 0 0
    ⟨[⟨0, 0, 100, 50, 255, 1, 0⟩, ⟨100, 0, 200, 50, 255, 1, 0⟩],
      ⟨300, 50, ⟨30, 1⟩, ⟨1, 30⟩⟩⟩ rfl

theorem framesync_ins_fields :
    ∀ (ls : List FilterLinkIn) (shortest : Bool) (i : Nat)
      (fsin : FFFrameSyncIn), fsin ∈ framesync_ins shortest i ls →
      fsin.before = FFFrameSyncExtMode.EXT_STOP ∧
      fsin.after = (if shortest then FFFrameSyncExtMode.EXT_STOP
                    else FFFrameSyncExtMode.EXT_INFINITY) := by
  intro ls
  induction ls with
  | nil => intro shortest i fsin h; simp [framesync_ins] at h
  | cons l ls ih =>
    intro shortest i fsin h
    simp only [framesync_ins] at h
    rcases List.mem_cons.mp h with hc | hc
    · rw [hc]
      exact ⟨rfl, rfl⟩
    · exact ih shortest (i + 1) fsin hc

/-- Claim C8: the user-facing option table has exactly two entries — an input
count of type int with default 2 bounded to [2, 64], and a boolean
stop-at-shortest flag defaulting to 0 — and every per-input frame-sync entry
written by `init_framesync` has `before = EXT_STOP` and
`after = EXT_STOP` when the flag is set, `EXT_INFINITY` (extend
indefinitely) when it is not. -/
theorem options_and_eof_policy (shortest : Bool) (inputs : List FilterLinkIn)
    (i : Nat) (fsin : FFFrameSyncIn)
    (hget : (framesync_ins shortest 0 inputs)[i]? = some fsin) :
    stack_qsv_options.length = 2 ∧
    stack_qsv_options[0]? = some ⟨"inputs", AVOptType.int, 2, 2, 64⟩ ∧
    stack_qsv_options[1]? = some ⟨"shortest", AVOptType.bool, 0, 0, 1⟩ ∧
    fsin.before = FFFrameSyncExtMode.EXT_STOP ∧
    fsin.after = (if shortest then FFFrameSyncExtMode.EXT_STOP
                  else FFFrameSyncExtMode.EXT_INFINITY) := by
  have hmem : fsin ∈ framesync_ins shortest 0 inputs := List.getElem?_mem hget
  obtain ⟨hb, ha⟩ := framesync_ins_fields inputs shortest 0 fsin hmem
  exact ⟨rfl, rfl, rfl, hb, ha⟩

theorem options_and_eof_policy_witness :
    (framesync_ins true 0 [nv12Link 100 50])[0]? =
      some ⟨FFFrameSyncExtMode.EXT_STOP, FFFrameSyncExtMode.EXT_STOP, 2,
        ⟨1, 1000⟩⟩ ∧
    stack_qsv_options.length = 2 :=
  ⟨rfl, (options_and_eof_policy true [nv12Link 100 50] 0
      ⟨FFFrameSyncExtMode.EXT_STOP, FFFrameSyncExtMode.EXT_STOP, 2, ⟨1, 1000⟩⟩
      rfl).1⟩

/-- Claim C9: on every successful configuration the output link frame rate is
copied from input 0 and the output time base is the rational inverse of that
frame rate (numerator and denominator swapped), not any input time base. -/
theorem output_timebase_inverse_framerate (l0 : FilterLinkIn)
    (rest : List FilterLinkIn) (is_horizontal : Bool) (width0 height0 : Nat)
    (items0 : List mfxVPPCompInputStream) (r : ConfigResult)
    (hok : config_output (l0 :: rest) is_horizontal width0 height0 items0 =
      Except.ok r) :
    r.outlink.frame_rate = l0.frame_rate ∧
    r.outlink.time_base = av_inv_q l0.frame_rate ∧
    r.outlink.time_base = ⟨l0.frame_rate.den, l0.frame_rate.num⟩ := by
  cases is_horizontal with
  | false =>
    rw [config_output_ok_vertical l0 rest width0 height0 items0 r hok]
    exact ⟨rfl, rfl, rfl⟩
  | true =>
    obtain ⟨_, _, hout⟩ :=
      config_output_ok_horizontal l0 rest width0 height0 items0 r hok
    rw [hout]
    exact ⟨rfl, rfl, rfl⟩

theorem output_timebase_inverse_framerate_witness :
    config_output [nv12Link 100 50, nv12Link 100 50] false 7 9 (init_items 2) =
      Except.ok ⟨init_items 2, ⟨7, 9, ⟨30, 1⟩, ⟨1, 30⟩⟩⟩ ∧
    (ConfigResult.mk (init_items 2) ⟨7, 9, ⟨30, 1⟩, ⟨1, 30⟩⟩).outlink.time_base =
      av_inv_q (nv12Link 100 50).frame_rate :=
  ⟨rfl, (output_timebase_inverse_framerate (nv12Link 100 50) [nv12Link 100 50]
      false 7 9 (init_items 2) ⟨init_items 2, ⟨7, 9, ⟨30, 1⟩, ⟨1, 30⟩⟩⟩
      rfl).2.1⟩

/-- Claim C10: every `InputStream` entry written by a (horizontal)
configuration marks the stream fully opaque: `GlobalAlpha = 255`,
`GlobalAlphaEnable = 1`, `PixelAlphaEnable = 0`, for every input. -/
theorem configured_streams_alpha (l0 : FilterLinkIn) (rest : List FilterLinkIn)
    (width0 height0 : Nat) (items0 : List mfxVPPCompInputStream)
    (r : ConfigResult)
    (hok : config_output (l0 :: rest) true width0 height0 items0 =
      Except.ok r) :
    ∀ s ∈ r.items,
      s.GlobalAlpha = 255 ∧ s.GlobalAlphaEnable = 1 ∧ s.PixelAlphaEnable = 0 := by
  obtain ⟨_, hitems, _⟩ :=
    config_output_ok_horizontal l0 rest width0 height0 items0 r hok
  intro s hs
  rw [hitems] at hs
  exact horItems_mem_alpha (l0 :: rest) 0 s hs

theorem configured_streams_alpha_witness :
    (⟨100, 0, 200, 50, 255, 1, 0⟩ : mfxVPPCompInputStream).GlobalAlpha = 255 ∧
    (⟨100, 0, 200, 50, 255, 1, 0⟩ : mfxVPPCompInputStream).GlobalAlphaEnable = 1 ∧
    (⟨100, 0, 200, 50, 255, 1, 0⟩ : mfxVPPCompInputStream).PixelAlphaEnable = 0 :=
  configured_streams_alpha (nv12Link 100 50) [nv12Link 200 50] 0 0
    (init_items 2)
    ⟨[⟨0, 0, 100, 50, 255, 1, 0⟩, ⟨100, 0, 200, 50, 255, 1, 0⟩],
      ⟨300, 50, ⟨30, 1⟩, ⟨1, 30⟩⟩⟩ rfl ⟨100, 0, 200, 50, 255, 1, 0⟩ (by decide)
